import Mathlib

/-!
Verification of the users-service authentication view
(`src/users_service/views/auth_view.py`) against its natural-language
specification.  The four request handlers (register, login, status, logout)
and the list-users handler are shallowly embedded as pure Lean functions over
an explicit state holding the user table, the blacklist table and the
server-side session.  External collaborators that are not part of the
repository code (the JWT token codec, the bcrypt password primitive) and
repository modules that are not available under src/ (the User model, the
marshmallow user schema) are modelled from the spec, as marked on each
definition.
-/

namespace UsersService

/-- A decoded token: the identity claim (the user email) and the expiry
timestamp.  Models the payload of the JWT produced by the external codec. -/
structure Tok where
  identity : String
  exp : Nat
deriving DecidableEq, Repr

/-- Modelled from the spec: the external JWT codec mints a signed string
embedding the identity and the expiry.  The handlers treat the string as
opaque, so any injective serialization is a faithful stand-in; here the
expiry is a run of stars and the identity is the tail after the second dot. -/
def encodeToken (t : Tok) : String :=
  "jwt." ++ String.mk (List.replicate t.exp '*') ++ "." ++ t.identity

/-- Partial inverse of the serialization, on the character list. -/
def parseTokenData : List Char → Option Tok
  | 'j' :: 'w' :: 't' :: '.' :: rest =>
    match rest.dropWhile (fun c => c == '*') with
    | '.' :: idChars =>
      some ⟨String.mk idChars, (rest.takeWhile (fun c => c == '*')).length⟩
    | _ => none
  | _ => none

/-- Modelled from the spec: the external JWT codec parses a token string,
recovering the identity and expiry claims; a string that is not a token of
the expected shape fails to parse (DecodeError in the library). -/
def parseToken (s : String) : Option Tok :=
  parseTokenData s.data

/-- Token lifetime, in ticks.  Modelled from the spec: the expiry is a fixed
configurable duration after issuance (the test suite uses about 50 seconds). -/
def ACCESS_EXPIRES : Nat := 50

/-- `create_access_token(identity=...)` of the external codec: mints a token
for the identity expiring `ACCESS_EXPIRES` after the current time `now`. -/
def create_access_token (identity : String) (now : Nat) : String :=
  encodeToken ⟨identity, now + ACCESS_EXPIRES⟩

/-- Modelled from the spec: the external password-hashing collaborator,
`hash(plaintext) -> hash`.  Any injective function models it. -/
def hashPw (p : String) : String :=
  "bcrypt$" ++ p

/-- Modelled from the spec: `verify(hash, plaintext) -> bool` of the external
password-hashing collaborator (`BCRYPT.check_password_hash`). -/
def check_password_hash (h p : String) : Bool :=
  h == hashPw p

/-- A row of the user table.  Mirrors the fields used by the view code:
email, stored (hashed) password, first name, last name, role id
(1 = regular, 2 = admin). -/
structure User where
  email : String
  password : String
  first_name : String
  last_name : String
  role_id : Nat
deriving DecidableEq, Repr

/-- The server-side session: `session[AUTH_TOKEN_KEY]` and `session[IS_ADMIN]`
as written by the handlers; `none` when the key is absent. -/
structure Session where
  auth_token : Option String := none
  admin : Option Bool := none
deriving DecidableEq, Repr

/-- Service state: the user table, the blacklist table (token strings), and
the server-side session. -/
structure St where
  users : List User
  blacklist : List String
  session : Session
deriving DecidableEq, Repr

/-- JSON response bodies produced by the handlers. -/
inductive Body where
  | msg (m : String)
  | err (e : String)
  | tokenMsg (m : String) (token : String)
  | profile (fields : List (String × String))
  | profiles (rows : List (List (String × String)))
deriving DecidableEq, Repr

/-- An HTTP response: status code and JSON body. -/
structure Response where
  code : Nat
  body : Body
deriving DecidableEq, Repr

/-- Validated input of `RegisterResource.post` (after `USER_SCHEMA.load`). -/
structure RegisterInput where
  email : String
  password : String
  first_name : String
  last_name : String
deriving DecidableEq, Repr

/-- Validated input of `LoginResource.post`. -/
structure LoginInput where
  email : String
  password : String
deriving DecidableEq, Repr

/-- Modelled from the spec: `USER_SCHEMA.dump(user).data` of the missing
serializer module dumps all model fields, the hashed password included
(the view then deletes the password key by hand). -/
def dumpUser (u : User) : List (String × String) :=
  [("email", u.email), ("password", u.password), ("first_name", u.first_name),
   ("last_name", u.last_name), ("role_id", toString u.role_id)]

/-- `del obj[k]`: removes the binding of key `k` from a dumped dict. -/
def delKey (k : String) (d : List (String × String)) : List (String × String) :=
  d.filter (fun kv => kv.1 != k)

/-- `RegisterResource.post`: builds a `User` row with `role_id=1` from the
validated input (the missing User model hashes the password, per the spec),
commits it — an IntegrityError on the unique email constraint rolls back and
answers 400 `Already exists.` — otherwise mints a token for the new email,
stores token and a false admin flag in the session, and answers 201. -/
def registerPost (now : Nat) (st : St) (inp : RegisterInput) : Response × St :=
  let user : User :=
    ⟨inp.email, hashPw inp.password, inp.first_name, inp.last_name, 1⟩
  if st.users.any (fun u => u.email == inp.email) then
    (⟨400, Body.err "Already exists."⟩, st)
  else
    let tok := create_access_token inp.email now
    (⟨201, Body.tokenMsg "Successfully registered." tok⟩,
     { st with users := st.users ++ [user],
               session := ⟨some tok, some false⟩ })

/-- `LoginResource.post`: looks the user up by email; `if user and
BCRYPT.check_password_hash(...)` mints a token, stores token and
`role_id == 2` admin flag in the session and answers 201; a falsy user or a
failed check both fall through to 400 `Wrong password.`. -/
def loginPost (now : Nat) (st : St) (inp : LoginInput) : Response × St :=
  match st.users.find? (fun u => u.email == inp.email) with
  | some user =>
    if check_password_hash user.password inp.password then
      let tok := create_access_token user.email now
      (⟨201, Body.tokenMsg "Successfully logged in." tok⟩,
       { st with session := ⟨some tok, some (user.role_id == 2)⟩ })
    else
      (⟨400, Body.err "Wrong password."⟩, st)
  | none => (⟨400, Body.err "Wrong password."⟩, st)

/-- `request.headers.get(k)`: the value of header `k`, `none` when absent. -/
def headersGet (hs : List (String × String)) (k : String) : Option String :=
  (hs.find? (fun kv => kv.1 == k)).map (fun kv => kv.2)

/-- Python `str.split(sep)` on the character list: splits at every
occurrence of `sep`. -/
def splitChar (sep : Char) : List Char → List (List Char)
  | [] => [[]]
  | c :: rest =>
    let r := splitChar sep rest
    if c == sep then [] :: r
    else (c :: r.headD []) :: r.tail

/-- Python `str.split(sep)` on strings. -/
def pySplit (sep : Char) (s : String) : List String :=
  (splitChar sep s.data).map String.mk

/-- `StatusResource.get`: reads `request.headers.get('Set-Cookie')`, takes
element 1 of its split on `=`, decodes the token and returns the dumped user
with the password key deleted.  A `none` result models an unhandled Python
exception (the only except clauses are a dead `except KeyError` — `.get`
returns None, on which `.split` raises AttributeError, and a short split list
raises IndexError — and `except ExpiredSignatureError` around the decode;
a DecodeError on a malformed token string and the dump of a missing user
also escape).  The blacklist table is never consulted. -/
def statusGet (now : Nat) (st : St) (headers : List (String × String)) :
    Option Response :=
  match headersGet headers "Set-Cookie" with
  | none => none
  | some v =>
    match (pySplit '=' v)[1]? with
    | none => none
    | some access_token =>
      match parseToken access_token with
      | none => none
      | some tok =>
        if tok.exp < now then
          some ⟨401, Body.err "Signature expired. Please, log in again."⟩
        else
          match st.users.find? (fun u => u.email == tok.identity) with
          | none => none
          | some user =>
            some ⟨200, Body.profile (delKey "password" (dumpUser user))⟩

/-- `LogoutResource.post`: pops the session keys and clears the session, then
answers 200 `Successfully logged out.` unconditionally.  It never reads the
authorization header, never decodes the token, never consults nor writes the
blacklist table. -/
def logoutPost (st : St) (_headers : List (String × String)) : Response × St :=
  (⟨200, Body.msg "Successfully logged out."⟩,
   { st with session := ⟨none, none⟩ })

/-- `UsersResource.get`: dumps every user row and deletes the password key
from each, answering 200. -/
def usersGet (st : St) : Response :=
  ⟨200, Body.profiles ((st.users.map dumpUser).map (delKey "password"))⟩

/-! ### Codec roundtrip -/

theorem takeWhile_star_replicate (e : Nat) (l : List Char) :
    (List.replicate e '*' ++ '.' :: l).takeWhile (fun c => c == '*') =
      List.replicate e '*' := by
  induction e with
  | zero => simp [List.takeWhile]
  | succ n ih => simp [List.replicate, List.takeWhile, ih]

theorem dropWhile_star_replicate (e : Nat) (l : List Char) :
    (List.replicate e '*' ++ '.' :: l).dropWhile (fun c => c == '*') =
      '.' :: l := by
  induction e with
  | zero => simp [List.dropWhile]
  | succ n ih => simp [List.replicate, List.dropWhile, ih]

theorem parseToken_encodeToken (t : Tok) : parseToken (encodeToken t) = some t := by
  obtain ⟨id, e⟩ := t
  obtain ⟨idData⟩ := id
  simp [parseToken, encodeToken, parseTokenData, String.data_append,
    dropWhile_star_replicate, takeWhile_star_replicate]

/-! ### Concrete fixtures (mirroring the repository test data) -/

/-- The user row registration builds for the test fixture joe. -/
def userJoe : User :=
  ⟨"joe@gmail.com", hashPw "123456", "joe", "doe", 1⟩

/-- A token minted for joe at time 10 (so its expiry is 60). -/
def tokJoe : String :=
  create_access_token "joe@gmail.com" 10

/-- Register input of the test fixture joe. -/
def joeInp : RegisterInput :=
  ⟨"joe@gmail.com", "123456", "joe", "doe"⟩

/-- The empty service state. -/
def stEmpty : St :=
  ⟨[], [], ⟨none, none⟩⟩

/-- State holding joe with an empty blacklist. -/
def stJoe : St :=
  ⟨[userJoe], [], ⟨none, none⟩⟩

/-- State holding joe with joe's live token blacklisted. -/
def stBlk : St :=
  ⟨[userJoe], [tokJoe], ⟨none, none⟩⟩

/-- A Set-Cookie header carrying joe's token, the only shape the status
handler can actually read. -/
def hdrsCookie : List (String × String) :=
  [("Set-Cookie", "auth_token=" ++ tokJoe)]

/-- The authorization header the repository tests send (well-formed bearer). -/
def hdrsBearer : List (String × String) :=
  [("Authorization", "Bearer " ++ tokJoe)]

/-- A structurally invalid bearer header (missing the space separator),
as sent by the malformed-token test of the repository. -/
def hdrsBearerNoSpace : List (String × String) :=
  [("Authorization", "Bearer" ++ tokJoe)]

/-- An admin user row (role id 2). -/
def userAdmin : User :=
  ⟨"admin@gmail.com", hashPw "adminpw", "ada", "min", 2⟩

/-- State holding joe and the admin user. -/
def stBoth : St :=
  ⟨[userJoe, userAdmin], [], ⟨none, none⟩⟩

/-! ### Claims -/

/-- C1: the claim says that a token present in the blacklist store fails both
the status and the logout operation with Blacklisted even before its expiry.
In the code neither handler consults the blacklist: with joe's unexpired
token (expiry 60, current time 20) blacklisted, the status operation still
answers 200 with joe's profile and the logout operation still answers 200
success. -/
theorem c1_blacklisted_token_still_accepted :
    tokJoe ∈ stBlk.blacklist ∧
    (parseToken tokJoe).map Tok.exp = some 60 ∧ (20 : Nat) < 60 ∧
    statusGet 20 stBlk hdrsCookie =
      some ⟨200, Body.profile (delKey "password" (dumpUser userJoe))⟩ ∧
    (logoutPost stBlk hdrsBearer).1 =
      ⟨200, Body.msg "Successfully logged out."⟩ := by
  decide

/-- C2: the claim says logout fails with Blacklisted on a blacklisted token,
fails with Expired on an expired token, and otherwise inserts the token into
the blacklist store.  In the code logout never reads the token at all: it
answers 200 success for every state and header list, and it leaves the
blacklist store exactly as it was (so in particular it never inserts). -/
theorem c2_logout_ignores_token_and_blacklist :
    ∀ (st : St) (hdrs : List (String × String)),
      (logoutPost st hdrs).1 = ⟨200, Body.msg "Successfully logged out."⟩ ∧
      (logoutPost st hdrs).2.blacklist = st.blacklist :=
  fun _ _ => ⟨rfl, rfl⟩

/-- C3: registering an email that is not yet in the user store persists the
new user row (built with the hashed password and role id 1), answers with a
201 created status, and returns a token whose embedded identity claim equals
the registered email. -/
theorem c3_register_new_email (now : Nat) (st : St) (inp : RegisterInput)
    (hfresh : st.users.any (fun u => u.email == inp.email) = false) :
    (registerPost now st inp).1.code = 201 ∧
    (registerPost now st inp).2.users =
      st.users ++
        [⟨inp.email, hashPw inp.password, inp.first_name, inp.last_name, 1⟩] ∧
    ∃ tokStr,
      (registerPost now st inp).1.body =
        Body.tokenMsg "Successfully registered." tokStr ∧
      (parseToken tokStr).map Tok.identity = some inp.email := by
  refine ⟨?_, ?_, create_access_token inp.email now, ?_, ?_⟩ <;>
    simp [registerPost, hfresh, create_access_token, parseToken_encodeToken]

/-- Witness for C3 at the concrete joe fixture over the empty store. -/
theorem c3_register_new_email_witness :
    (stEmpty.users.any (fun u => u.email == joeInp.email) = false) ∧
    ((registerPost 0 stEmpty joeInp).1.code = 201 ∧
     (registerPost 0 stEmpty joeInp).2.users =
       stEmpty.users ++
         [⟨joeInp.email, hashPw joeInp.password, joeInp.first_name,
           joeInp.last_name, 1⟩] ∧
     ∃ tokStr,
       (registerPost 0 stEmpty joeInp).1.body =
         Body.tokenMsg "Successfully registered." tokStr ∧
       (parseToken tokStr).map Tok.identity = some joeInp.email) :=
  ⟨by decide, c3_register_new_email 0 stEmpty joeInp (by decide)⟩

/-- C4: the claim says a duplicate registration fails with AlreadyExists
reported as HTTP 202 and leaves the user store unchanged.  The code does
leave the store unchanged (rollback), but it reports the failure as HTTP 400
with body `Already exists.`, never 202: registering joe twice answers 400 on
the second attempt. -/
theorem c4_duplicate_register_not_202 :
    (registerPost 5 (registerPost 0 stEmpty joeInp).2 joeInp).1 =
      ⟨400, Body.err "Already exists."⟩ ∧
    (registerPost 5 (registerPost 0 stEmpty joeInp).2 joeInp).1.code ≠ 202 ∧
    (registerPost 5 (registerPost 0 stEmpty joeInp).2 joeInp).2.users =
      (registerPost 0 stEmpty joeInp).2.users := by
  decide

/-- C5: the claim says the status operation parses the `Bearer <token>`
structure of the authorization header and answers 401 Malformed exactly on a
structurally invalid header.  The code never reads the authorization header:
it reads the `Set-Cookie` header, so with joe in the store and a live token,
both the malformed bearer header (missing separator) and even the well-formed
bearer header end in an unhandled exception (`none`), never a 401 Malformed
response. -/
theorem c5_malformed_bearer_unhandled :
    statusGet 20 stJoe hdrsBearerNoSpace = none ∧
    statusGet 20 stJoe hdrsBearer = none := by
  decide

/-- C6: for a login request naming an email present in the user store, a
password matching the stored hash yields a 201 created response carrying a
minted token, and a non-matching password yields the 400 `Wrong password.`
failure. -/
theorem c6_login_known_email :
    (∀ (now : Nat) (st : St) (inp : LoginInput) (u : User),
       st.users.find? (fun x => x.email == inp.email) = some u →
       check_password_hash u.password inp.password = true →
       (loginPost now st inp).1.code = 201 ∧
       ∃ tokStr, (loginPost now st inp).1.body =
         Body.tokenMsg "Successfully logged in." tokStr) ∧
    (∀ (now : Nat) (st : St) (inp : LoginInput) (u : User),
       st.users.find? (fun x => x.email == inp.email) = some u →
       check_password_hash u.password inp.password = false →
       (loginPost now st inp).1 = ⟨400, Body.err "Wrong password."⟩) := by
  constructor
  · intro now st inp u hfind hpw
    refine ⟨?_, create_access_token u.email now, ?_⟩ <;>
      simp [loginPost, hfind, hpw]
  · intro now st inp u hfind hpw
    simp [loginPost, hfind, hpw]

/-- Witness for C6: joe logs in with the right and with a wrong password. -/
theorem c6_login_known_email_witness :
    (stJoe.users.find? (fun x => x.email == "joe@gmail.com") = some userJoe ∧
     check_password_hash userJoe.password "123456" = true ∧
     (loginPost 0 stJoe ⟨"joe@gmail.com", "123456"⟩).1.code = 201 ∧
     ∃ tokStr, (loginPost 0 stJoe ⟨"joe@gmail.com", "123456"⟩).1.body =
       Body.tokenMsg "Successfully logged in." tokStr) ∧
    (check_password_hash userJoe.password "wrong" = false ∧
     (loginPost 0 stJoe ⟨"joe@gmail.com", "wrong"⟩).1 =
       ⟨400, Body.err "Wrong password."⟩) :=
  ⟨⟨by decide, by decide,
    c6_login_known_email.1 0 stJoe ⟨"joe@gmail.com", "123456"⟩ userJoe
      (by decide) (by decide)⟩,
   by decide,
   c6_login_known_email.2 0 stJoe ⟨"joe@gmail.com", "wrong"⟩ userJoe
     (by decide) (by decide)⟩

/-- The key deleted by `delKey` no longer occurs among the keys. -/
theorem not_mem_map_fst_delKey (k : String) (d : List (String × String)) :
    k ∉ (delKey k d).map Prod.fst := by
  intro hmem
  rcases List.mem_map.mp hmem with ⟨kv, hkv, hfst⟩
  rcases List.mem_filter.mp hkv with ⟨_, hne⟩
  exact (by simpa using hne : kv.1 ≠ k) hfst

/-- C8: every profile returned by the status operation and every row returned
by the list-users operation has the password key deleted, so the hashed
credential is never part of a response. -/
theorem c8_password_stripped :
    (∀ (now : Nat) (st : St) (hdrs : List (String × String))
       (r : Response) (fields : List (String × String)),
       statusGet now st hdrs = some r → r.body = Body.profile fields →
       "password" ∉ fields.map Prod.fst) ∧
    (∀ (st : St) (rows : List (List (String × String)))
       (p : List (String × String)),
       (usersGet st).body = Body.profiles rows → p ∈ rows →
       "password" ∉ p.map Prod.fst) := by
  constructor
  · intro now st hdrs r fields h hb
    unfold statusGet at h
    split at h
    · exact absurd h (by simp)
    · split at h
      · exact absurd h (by simp)
      · split at h
        · exact absurd h (by simp)
        · split at h
          · injection h with h
            subst h
            simp at hb
          · split at h
            · exact absurd h (by simp)
            · injection h with h
              subst h
              simp only [Body.profile.injEq] at hb
              subst hb
              exact not_mem_map_fst_delKey _ _
  · intro st rows p hrows hp
    simp only [usersGet, Body.profiles.injEq] at hrows
    subst hrows
    rcases List.mem_map.mp hp with ⟨d, _, rfl⟩
    exact not_mem_map_fst_delKey _ d

/-- Witness for C8 at joe's concrete profile. -/
theorem c8_password_stripped_witness :
    (statusGet 20 stJoe hdrsCookie =
       some ⟨200, Body.profile (delKey "password" (dumpUser userJoe))⟩ ∧
     "password" ∉ (delKey "password" (dumpUser userJoe)).map Prod.fst) ∧
    ((usersGet stJoe).body = Body.profiles [delKey "password" (dumpUser userJoe)] ∧
     "password" ∉ (delKey "password" (dumpUser userJoe)).map Prod.fst) :=
  ⟨⟨by decide,
    c8_password_stripped.1 20 stJoe hdrsCookie
      ⟨200, Body.profile (delKey "password" (dumpUser userJoe))⟩
      (delKey "password" (dumpUser userJoe)) (by decide) rfl⟩,
   by decide,
   c8_password_stripped.2 stJoe [delKey "password" (dumpUser userJoe)]
     (delKey "password" (dumpUser userJoe)) (by decide) (by decide)⟩

/-- C9: every user row present after a register operation was either already
in the store or was created with role id 1: registration can never create an
admin row. -/
theorem c9_register_role_regular (now : Nat) (st : St) (inp : RegisterInput)
    (u : User) (hu : u ∈ (registerPost now st inp).2.users) :
    u ∈ st.users ∨ u.role_id = 1 := by
  simp only [registerPost] at hu
  split at hu
  · exact Or.inl hu
  · rcases List.mem_append.mp hu with h | h
    · exact Or.inl h
    · right
      rcases List.mem_singleton.mp h with rfl
      rfl

/-- Witness for C9: joe registered over the empty store. -/
theorem c9_register_role_regular_witness :
    userJoe ∈ (registerPost 0 stEmpty joeInp).2.users ∧
    (userJoe ∈ stEmpty.users ∨ userJoe.role_id = 1) :=
  ⟨by decide, c9_register_role_regular 0 stEmpty joeInp userJoe (by decide)⟩

/-- C10: a successful login stores in the session an admin flag that is true
exactly when the logged-in user's role id is 2, and a successful registration
always stores a false admin flag. -/
theorem c10_session_admin_flag :
    (∀ (now : Nat) (st : St) (inp : LoginInput) (u : User),
       st.users.find? (fun x => x.email == inp.email) = some u →
       check_password_hash u.password inp.password = true →
       (loginPost now st inp).2.session.admin = some (u.role_id == 2)) ∧
    (∀ (now : Nat) (st : St) (inp : RegisterInput),
       st.users.any (fun u => u.email == inp.email) = false →
       (registerPost now st inp).2.session.admin = some false) := by
  constructor
  · intro now st inp u hfind hpw
    simp [loginPost, hfind, hpw]
  · intro now st inp hfresh
    simp [registerPost, hfresh]

/-- Witness for C10: the admin user logs in, joe registers. -/
theorem c10_session_admin_flag_witness :
    (stBoth.users.find? (fun x => x.email == "admin@gmail.com") =
       some userAdmin ∧
     check_password_hash userAdmin.password "adminpw" = true ∧
     (loginPost 0 stBoth ⟨"admin@gmail.com", "adminpw"⟩).2.session.admin =
       some true) ∧
    (stEmpty.users.any (fun u => u.email == joeInp.email) = false ∧
     (registerPost 0 stEmpty joeInp).2.session.admin = some false) :=
  ⟨⟨by decide, by decide,
    c10_session_admin_flag.1 0 stBoth ⟨"admin@gmail.com", "adminpw"⟩ userAdmin
      (by decide) (by decide)⟩,
   by decide,
   c10_session_admin_flag.2 0 stEmpty joeInp (by decide)⟩

/-- C7: the claim says a login request naming an email with no matching user
fails with NotFound 404.  In the code a missing user falls into the same
branch as a wrong password: over the empty store the login answers 400
`Wrong password.`, never 404. -/
theorem c7_unknown_email_login_not_404 :
    stEmpty.users.find? (fun u => u.email == "joe@gmail.com") = none ∧
    (loginPost 0 stEmpty ⟨"joe@gmail.com", "123456"⟩).1 =
      ⟨400, Body.err "Wrong password."⟩ ∧
    (loginPost 0 stEmpty ⟨"joe@gmail.com", "123456"⟩).1.code ≠ 404 := by
  decide

end UsersService
